import Mathlib

/-!
Verification of the date-watermarking tool in src/main.py against its
specification. The Python functions are embedded shallowly: integers are
Lean Int (Python ints are unbounded, // is floor division), strings are
Lean String, library effects (PIL image opening, EXIF access, strptime,
drawing, the filesystem) are made explicit parameters or modelled data,
and every function is total, with printed diagnostics returned as lists
of lines.
-/

/-- Python floor division on integers: the meaning of the // operator used in
get_position (src/main.py lines 40, 42, 44). -/
def pydiv (a b : Int) : Int := Int.fdiv a b

/-- get_position (src/main.py lines 28-47): maps image size, text size and the
anchor string to the draw coordinates; the margin constant named padding in the
source is 20; the final else branch is the bottom-right default. -/
def get_position (img_width img_height text_width text_height : Int)
    (position : String) : Int × Int :=
  -- padding = 20 in the source
  if position = "top-left" then (20, 20)
  else if position = "top-right" then (img_width - text_width - 20, 20)
  else if position = "bottom-left" then (20, img_height - text_height - 20)
  else if position = "bottom-right" then
    (img_width - text_width - 20, img_height - text_height - 20)
  else if position = "center" then
    (pydiv (img_width - text_width) 2, pydiv (img_height - text_height) 2)
  else if position = "top-center" then (pydiv (img_width - text_width) 2, 20)
  else if position = "bottom-center" then
    (pydiv (img_width - text_width) 2, img_height - text_height - 20)
  else (img_width - text_width - 20, img_height - text_height - 20)

/-- The seven anchor values accepted by the argparse choices list
(src/main.py lines 111-114). -/
def anchorValues : List String :=
  [ "top-left", "top-center", "top-right", "center",
    "bottom-left", "bottom-center", "bottom-right" ]

/-- The range predicate of the position-bounds property: the point lies within
[0, w - tw] x [0, h - th]. -/
def inRange : Int × Int → Int → Int → Int → Int → Prop
  | (x, y), w, h, tw, th => 0 ≤ x ∧ x ≤ w - tw ∧ 0 ≤ y ∧ y ≤ h - th

/-- The extensions of the directory glob (src/main.py line 129), without the
star-dot part of each pattern. -/
def image_extensions : List String :=
  [ "jpg", "jpeg", "png", "bmp", "tiff", "webp" ]

/-- Python str.upper on an ASCII pattern, as applied to each glob pattern at
src/main.py line 133. -/
def strUpper (s : String) : String := String.mk (s.toList.map Char.toUpper)

/-- Whether the glob pattern star-then-suffix matches a file name: the name must
end with the suffix, and the star of a glob does not match a leading dot, so
dotfiles are excluded. -/
def globMatch (suffix name : String) : Bool :=
  match name.toList with
  | [] => false
  | c :: _ => c != '.' && suffix.toList.isSuffixOf name.toList

/-- The image_files list built for a directory input (src/main.py lines
129-133): for each extension, first the names matching the lowercase pattern,
then the names matching the uppercased pattern, in listing order. -/
def globImageFiles (listing : List String) : List String :=
  image_extensions.flatMap fun ext =>
    listing.filter (globMatch ( "." ++ ext)) ++
      listing.filter (globMatch (strUpper ( "." ++ ext)))

/-- Result of attempting Image.open plus the _getexif call on a path
(src/main.py lines 11-12): the open can raise with a message, or yield an image
whose EXIF block is absent (None) or is a tag dictionary, modelled as a list of
tag-name/value pairs after the ExifTags.TAGS name lookup of line 16. -/
inductive ExifOpen where
  | failure (msg : String)
  | ok (exif : Option (List (String × String)))
  deriving DecidableEq

/-- The tag loop of src/main.py lines 15-20: the first DateTimeOriginal entry
whose value is truthy (nonempty) is selected for parsing; entries with a falsy
value do not return, the loop continues. -/
def scanTags : List (String × String) → Option String
  | [] => none
  | (t, v) :: rest =>
    if t = "DateTimeOriginal" ∧ v ≠ "" then some v else scanTags rest

/-- Splitting a character list at every occurrence of a separator. -/
def splitOnChar (sep : Char) : List Char → List (List Char)
  | [] => [[]]
  | c :: rest =>
    let r := splitOnChar sep rest
    if c = sep then [] :: r
    else
      match r with
      | [] => [[c]]
      | g :: gs => (c :: g) :: gs

/-- A nonempty all-digit character group read as a decimal number. -/
def parseNatDigits (cs : List Char) : Option Nat :=
  if cs = [] then none
  else if cs.all Char.isDigit then
    some (cs.foldl (fun a c => 10 * a + (c.toNat - 48)) 0)
  else none

/-- Modelled from the library call datetime.strptime(value, the colon-separated
year month day hour minute second format) at src/main.py line 20: succeeds
exactly on a digit date part and digit time part within calendar and clock
ranges, returning the (year, month, day) triple; none models the ValueError the
library raises otherwise. -/
def parseExifDateTime (s : String) : Option (Nat × Nat × Nat) :=
  match splitOnChar ' ' s.toList with
  | [datePart, timePart] =>
    match splitOnChar ':' datePart, splitOnChar ':' timePart with
    | [ys, ms, ds], [hs, ns, ss] =>
      match parseNatDigits ys, parseNatDigits ms, parseNatDigits ds,
            parseNatDigits hs, parseNatDigits ns, parseNatDigits ss with
      | some y, some m, some d, some hh, some nn, some sc =>
        if 1 ≤ m ∧ m ≤ 12 ∧ 1 ≤ d ∧ d ≤ 31 ∧ hh ≤ 23 ∧ nn ≤ 59 ∧ sc ≤ 61
        then some (y, m, d) else none
      | _, _, _, _, _, _ => none
    | _, _ => none
  | _ => none

/-- The f-string of src/main.py line 21: year, month and day joined by literal
backslashes; Python renders the int fields with no zero padding. -/
def formatExifDate (y m d : Nat) : String :=
  toString y ++ "\\" ++ toString m ++ "\\" ++ toString d

/-- Modelled from the CPython message of the ValueError strptime raises on a
non-matching value. -/
def strptimeErrorMsg (v : String) : String :=
  "time data " ++ v ++ " does not match the expected format"

/-- The diagnostic printed by the except handler of src/main.py line 24. -/
def exifFailLog (path msg : String) : String :=
  "读取 " ++ path ++ " 的EXIF信息失败: " ++ msg

/-- get_exif_datetime (src/main.py lines 9-25) over the modelled open result:
the formatted date string or none, paired with the printed diagnostic lines.
The whole body sits inside one try/except, so the function always returns. -/
def get_exif_datetime (path : String) (o : ExifOpen) :
    Option String × List String :=
  match o with
  | .failure msg => (none, [ exifFailLog path msg ])
  | .ok none => (none, [])
  | .ok (some tags) =>
    match scanTags tags with
    | none => (none, [])
    | some v =>
      match parseExifDateTime v with
      | some (y, m, d) => (some (formatExifDate y m d), [])
      | none => (none, [ exifFailLog path (strptimeErrorMsg v) ])

/-- Two-digit zero padding, as strftime applies to month and day fields. -/
def pad2 (n : Nat) : String :=
  if n < 10 then "0" ++ toString n else toString n

/-- The fallback text of src/main.py line 64: the current date through strftime
with the year/month/day pattern using the Chinese date-unit characters; month
and day are zero-padded to two digits. -/
def currentDateText (y m d : Nat) : String :=
  toString y ++ "年" ++ pad2 m ++ "月" ++ pad2 d ++ "日"

/-- Watermark text selection (src/main.py lines 62-65): the EXIF result when
truthy (present and nonempty), else the formatted current date (ty, tm, td). -/
def watermark_text (exifResult : Option String) (ty tm td : Nat) : String :=
  match exifResult with
  | some s => if s = "" then currentDateText ty tm td else s
  | none => currentDateText ty tm td

/-- The shadow color expression of src/main.py line 89, black in both
branches of its conditional. -/
def shadow_color (color : String) : String :=
  if color = "white" then "black" else "black"

/-- One draw.text call: position, text and fill color. -/
inductive DrawOp where
  | text (pos : Int × Int) (txt : String) (fill : String)
  deriving DecidableEq

/-- The two draw.text calls of the renderer (src/main.py lines 88-93), in
order: the shadow at (x + 2, y + 2) in the shadow color, then the main text at
(x, y) in the requested color. -/
def drawCalls (x y : Int) (txt color : String) : List DrawOp :=
  [ DrawOp.text (x + 2, y + 2) txt (shadow_color color),
    DrawOp.text (x, y) txt color ]

/-- src/main.py lines 53-56: after opening, any mode other than RGBA is
converted to RGBA. -/
def modeAfterOpen (mode : String) : String :=
  if mode ≠ "RGBA" then "RGBA" else mode

/-- src/main.py lines 96-99: the mode of the image handed to img.save; drawing
does not change the mode, so this composes with the mode after open. -/
def modeAtSave (mode : String) : String :=
  let m := modeAfterOpen mode
  if m = "RGBA" then "RGB" else m

/-- Per-file outcome of add_watermark (src/main.py lines 50-103): saved records
whether img.save was reached. Every exception in the body is caught by the
handler at lines 102-103, which only prints, so the call always returns
normally to the batch loop. The corrupt list is the set of files on which the
open/draw/save pipeline raises. -/
structure RenderOutcome where
  saved : Bool
  deriving DecidableEq

/-- Whether add_watermark reaches img.save for the given file. -/
def add_watermark_outcome (corrupt : List String) (path : String) :
    RenderOutcome :=
  ⟨!(corrupt.contains path)⟩

/-- The processing loop of src/main.py lines 149-160: first component is the
final success_count, second the number of files actually saved. Because
add_watermark returns normally on every input, nothing in the loop body raises
and success_count is incremented once per file, whether or not the file was
saved; the except handler of line 159 is unreachable. -/
def loopTally (corrupt : List String) : List String → Nat × Nat
  | [] => (0, 0)
  | f :: rest =>
    let o := add_watermark_outcome corrupt f
    let r := loopTally corrupt rest
    (r.1 + 1, r.2 + (if o.saved then 1 else 0))

/-- Environment of one run of main after argument parsing: the input path, what
the filesystem reports about it, the directory listing when it is a directory,
and the files on which the render pipeline raises internally. -/
structure BatchEnv where
  inputPath : String
  pathExists : Bool
  isFile : Bool
  dirListing : List String
  corrupt : List String
  deriving DecidableEq

/-- The working set of image files (src/main.py lines 124-133): a file input is
taken as a one-element list with no extension filter; a directory input is
globbed by extension. -/
def workingSet (env : BatchEnv) : List String :=
  if env.isFile then [ env.inputPath ] else globImageFiles env.dirListing

/-- Observable outcome of main: exit status, whether the output directory was
created, the footer tally (reportedSuccess over reportedTotal), and how many
files the renderer actually saved. -/
structure MainResult where
  exitCode : Nat
  outputDirCreated : Bool
  reportedSuccess : Option Nat
  reportedTotal : Option Nat
  savedCount : Option Nat
  deriving DecidableEq

/-- main (src/main.py lines 118-163): sys.exit(1) before any directory creation
when the path is missing or the working set is empty; otherwise the output
directory is created, every file is processed, the footer tally is printed and
the process ends with status 0. -/
def mainRun (env : BatchEnv) : MainResult :=
  if !env.pathExists then ⟨1, false, none, none, none⟩
  else
    let files := workingSet env
    if files.isEmpty then ⟨1, false, none, none, none⟩
    else
      ⟨0, true, some (loopTally env.corrupt files).1, some files.length,
        some (loopTally env.corrupt files).2⟩

/-- The zero-padded reading of the year-backslash-month-backslash-day pattern
stated by the spec, for comparison with the source format. -/
def specFormatYYYYMMDD (y m d : Nat) : String :=
  toString y ++ "\\" ++ pad2 m ++ "\\" ++ pad2 d

/-- The claim C5 reading of the directory filter: the file name, lowercased,
ends in a dot followed by one of the image extensions, so the extension matches
case-insensitively. -/
def specCaseInsensitiveMatch (name : String) : Bool :=
  image_extensions.any fun ext =>
    (( "." ++ ext).toList).isSuffixOf (name.toList.map Char.toLower)

/-! Helper lemmas shared by the claim theorems. -/

/-- Floor division by two of a nonnegative integer stays within [0, a]. -/
theorem pydiv_two_bounds (a : Int) (ha : 0 ≤ a) :
    0 ≤ pydiv a 2 ∧ pydiv a 2 ≤ a := by
  unfold pydiv
  rw [Int.fdiv_eq_ediv _ (by norm_num)]
  constructor <;> omega

/-- The EXIF-derived watermark string is never empty: it contains the two
backslash separators. -/
theorem formatExifDate_ne_empty (y m d : Nat) : formatExifDate y m d ≠ "" := by
  intro hc
  have hl := congrArg String.length hc
  have hone : ( "\\" : String).length = 1 := rfl
  simp [formatExifDate, String.length_append, hone] at hl

/-! Claim theorems. -/

/-- C4: get_position is a pure function with a fixed margin of 20 and floor
integer division mapping each of the seven anchors to exactly the table
coordinates, and every unrecognized anchor to the bottom-right coordinates. -/
theorem c4_position_table (w h tw th : Int) :
    get_position w h tw th ( "top-left" ) = (20, 20) ∧
    get_position w h tw th ( "top-center" ) = (pydiv (w - tw) 2, 20) ∧
    get_position w h tw th ( "top-right" ) = (w - tw - 20, 20) ∧
    get_position w h tw th ( "center" ) = (pydiv (w - tw) 2, pydiv (h - th) 2) ∧
    get_position w h tw th ( "bottom-left" ) = (20, h - th - 20) ∧
    get_position w h tw th ( "bottom-center" ) = (pydiv (w - tw) 2, h - th - 20) ∧
    get_position w h tw th ( "bottom-right" ) = (w - tw - 20, h - th - 20) ∧
    ∀ s : String, s ∉ anchorValues →
      get_position w h tw th s = (w - tw - 20, h - th - 20) := by
  refine ⟨rfl, rfl, rfl, rfl, rfl, rfl, rfl, ?_⟩
  intro s hs
  simp only [anchorValues, List.mem_cons, not_or, List.not_mem_nil] at hs
  obtain ⟨h1, h2, h3, h4, h5, h6, h7, -⟩ := hs
  simp [get_position, h1, h2, h3, h4, h5, h6, h7]

/-- Witness for C4 at concrete inputs, with an unrecognized anchor. -/
theorem c4_position_table_witness :
    get_position 200 100 40 12 ( "top-left" ) = (20, 20) ∧
    get_position 200 100 40 12 ( "diagonal" ) = (200 - 40 - 20, 100 - 12 - 20) := by
  exact ⟨ (c4_position_table 200 100 40 12).1,
    (c4_position_table 200 100 40 12).2.2.2.2.2.2.2 ( "diagonal" ) (by decide) ⟩

/-- C2 counterexample: at W = H = 30 and textW = textH = 30 — all positive,
textW ≤ W and textH ≤ H as the claim requires — the anchor top-left yields
(20, 20), which lies outside [0, W - textW] x [0, H - textH] = [0, 0] x [0, 0]. -/
theorem c2_counterexample :
    ((0 : Int) < 30 ∧ (30 : Int) ≤ 30) ∧
    get_position 30 30 30 30 ( "top-left" ) = (20, 20) ∧
    ¬ inRange (get_position 30 30 30 30 ( "top-left" )) 30 30 30 30 := by
  refine ⟨ by norm_num, rfl, ?_ ⟩
  intro hr
  have hx := hr.2.1
  norm_num at hx

/-- C2 amended: for every anchor string — the seven values and any unrecognized
one — whenever the free space covers one 20-unit margin (textW + 20 ≤ W and
textH + 20 ≤ H), the returned coordinates lie within [0, W - textW] x
[0, H - textH]; and an unrecognized anchor yields the same result as
bottom-right. -/
theorem c2_position_bounds (w h tw th : Int) (s : String)
    (hw : tw + 20 ≤ w) (hh : th + 20 ≤ h) :
    inRange (get_position w h tw th s) w h tw th ∧
    (s ∉ anchorValues →
      get_position w h tw th s = get_position w h tw th ( "bottom-right" )) := by
  obtain ⟨hfw1, hfw2⟩ := pydiv_two_bounds (w - tw) (by omega)
  obtain ⟨hfh1, hfh2⟩ := pydiv_two_bounds (h - th) (by omega)
  constructor
  · unfold get_position
    repeat' split
    all_goals exact ⟨by omega, by omega, by omega, by omega⟩
  · intro hs
    have hbr : get_position w h tw th ( "bottom-right" )
        = (w - tw - 20, h - th - 20) := rfl
    rw [hbr]
    simp only [anchorValues, List.mem_cons, not_or, List.not_mem_nil] at hs
    obtain ⟨h1, h2, h3, h4, h5, h6, h7, -⟩ := hs
    simp [get_position, h1, h2, h3, h4, h5, h6, h7]

/-- Witness for C2 at concrete inputs: a recognized anchor stays in range and an
unrecognized anchor equals bottom-right. -/
theorem c2_position_bounds_witness :
    inRange (get_position 200 100 40 12 ( "top-left" )) 200 100 40 12 ∧
    get_position 200 100 40 12 ( "diag" )
      = get_position 200 100 40 12 ( "bottom-right" ) := by
  exact ⟨ (c2_position_bounds 200 100 40 12 ( "top-left" ) (by norm_num)
      (by norm_num)).1,
    (c2_position_bounds 200 100 40 12 ( "diag" ) (by norm_num) (by norm_num)).2
      (by decide) ⟩

/-- C3 counterexample: a capture date of 2023-03-05 parses, but the source
formats it with no zero padding — the text is 2023 backslash 3 backslash 5 —
and not as the zero-padded form the YYYY-MM-DD-style pattern denotes. -/
theorem c3_counterexample :
    parseExifDateTime ( "2023:03:05 12:30:45" ) = some (2023, 3, 5) ∧
    formatExifDate 2023 3 5 = "2023\\3\\5" ∧
    formatExifDate 2023 3 5 ≠ specFormatYYYYMMDD 2023 3 5 := by decide

/-- C3 amended: whenever capture metadata is present with a truthy
DateTimeOriginal value that parses to the triple (y, m, d), the watermark text
is y, m and d joined by literal backslashes with no zero padding — so
2023-10-15 gives exactly the string 2023 backslash 10 backslash 15 — and
whenever the EXIF result is absent, the text is the current date in the
zero-padded Chinese year-month-day form. -/
theorem c3_watermark_text_selection (path v : String)
    (tags : List (String × String)) (y m d ty tm td : Nat)
    (hscan : scanTags tags = some v)
    (hparse : parseExifDateTime v = some (y, m, d)) :
    watermark_text (get_exif_datetime path (ExifOpen.ok (some tags))).1 ty tm td
      = toString y ++ "\\" ++ toString m ++ "\\" ++ toString d ∧
    watermark_text (get_exif_datetime path (ExifOpen.ok none)).1 ty tm td
      = currentDateText ty tm td := by
  have hne := formatExifDate_ne_empty y m d
  simp only [formatExifDate] at hne
  constructor
  · simp [get_exif_datetime, hscan, hparse, watermark_text, hne, formatExifDate]
  · simp [get_exif_datetime, watermark_text]

/-- Witness for C3: a tag dictionary carrying 2023:10:15 14:30:00 yields the
text 2023 backslash 10 backslash 15; an absent EXIF block on 2024-01-02 yields
the Chinese current-date form. -/
theorem c3_watermark_text_selection_witness :
    watermark_text (get_exif_datetime ( "photo.jpg" )
        (ExifOpen.ok (some [ ( "DateTimeOriginal", "2023:10:15 14:30:00" ) ]))).1
        2024 1 2
      = "2023\\10\\15" ∧
    watermark_text (get_exif_datetime ( "photo.jpg" ) (ExifOpen.ok none)).1
        2024 1 2
      = "2024年01月02日" := by
  have hmain := c3_watermark_text_selection ( "photo.jpg" )
    ( "2023:10:15 14:30:00" )
    ([ ( "DateTimeOriginal", "2023:10:15 14:30:00" ) ])
    2023 10 15 2024 1 2 (by decide) (by decide)
  refine ⟨ ?_, ?_ ⟩
  · rw [hmain.1]; decide
  · rw [hmain.2]; decide

/-- C6 counterexample: when the metadata block is absent — the _getexif call
returns None, one of the four failure cases — the reader returns no date but
prints no diagnostic at all, contrary to the claim that every failure case logs
one. -/
theorem c6_counterexample :
    (get_exif_datetime ( "photo.jpg" ) (ExifOpen.ok none)).1 = none ∧
    (get_exif_datetime ( "photo.jpg" ) (ExifOpen.ok none)).2 = [] := by decide

/-- C6 amended: the reader is a total function (never raises to its caller) and
returns the no-date value in all four failure cases; it logs a diagnostic
naming the path and the failure reason exactly in the two exception cases —
the file cannot be opened, or parsing fails — and logs nothing when the EXIF
block is absent or the DateTimeOriginal tag is absent. -/
theorem c6_exif_failure_cases (path msg v : String)
    (tags : List (String × String)) :
    get_exif_datetime path (ExifOpen.failure msg)
      = (none, [ exifFailLog path msg ]) ∧
    get_exif_datetime path (ExifOpen.ok none) = (none, []) ∧
    (scanTags tags = none →
      get_exif_datetime path (ExifOpen.ok (some tags)) = (none, [])) ∧
    (scanTags tags = some v → parseExifDateTime v = none →
      get_exif_datetime path (ExifOpen.ok (some tags))
        = (none, [ exifFailLog path (strptimeErrorMsg v) ])) := by
  refine ⟨rfl, rfl, ?_, ?_⟩
  · intro hscan
    simp [get_exif_datetime, hscan]
  · intro hscan hparse
    simp [get_exif_datetime, hscan, hparse]

/-- Witness for C6: a dictionary without the tag returns silently; a
malformed DateTimeOriginal value returns the no-date value with a diagnostic. -/
theorem c6_exif_failure_cases_witness :
    get_exif_datetime ( "a.jpg" ) (ExifOpen.ok (some [ ( "Make", "Nikon" ) ]))
      = (none, []) ∧
    get_exif_datetime ( "a.jpg" )
        (ExifOpen.ok (some [ ( "DateTimeOriginal", "not a date" ) ]))
      = (none, [ exifFailLog ( "a.jpg" ) (strptimeErrorMsg ( "not a date" )) ]) := by
  refine ⟨ ?_, ?_ ⟩
  · exact (c6_exif_failure_cases ( "a.jpg" ) ( "x" ) ( "v" )
      ([ ( "Make", "Nikon" ) ])).2.2.1 (by decide)
  · exact (c6_exif_failure_cases ( "a.jpg" ) ( "x" ) ( "not a date" )
      ([ ( "DateTimeOriginal", "not a date" ) ])).2.2.2 (by decide) (by decide)

/-- C5 counterexample: photo.Jpg carries the extension Jpg, which
case-insensitively is jpg, yet the working set built from the lowercase and
uppercase glob patterns excludes it, so the directory filter is not
case-insensitive. -/
theorem c5_counterexample :
    specCaseInsensitiveMatch ( "photo.Jpg" ) = true ∧
    globImageFiles [ "photo.Jpg" ] = [] := by decide

/-- C5 amended: for a directory input the working set holds exactly the listed
names, not starting with a dot, that end in a dot followed by one of the six
extensions written either all-lowercase or all-uppercase; the extension match
is exact per pattern, so mixed-case extensions such as photo.Jpg are excluded. -/
theorem c5_directory_filter (listing : List String) (name : String) :
    name ∈ globImageFiles listing ↔
      name ∈ listing ∧
      ∃ ext ∈ image_extensions,
        (globMatch ( "." ++ ext) name = true ∨
          globMatch (strUpper ( "." ++ ext)) name = true) := by
  unfold globImageFiles
  simp only [List.mem_flatMap, List.mem_append, List.mem_filter]
  constructor
  · rintro ⟨ext, hext, ⟨hin, hp⟩ | ⟨hin, hp⟩⟩
    · exact ⟨hin, ext, hext, Or.inl hp⟩
    · exact ⟨hin, ext, hext, Or.inr hp⟩
  · rintro ⟨hlist, ext, hext, hp | hp⟩
    · exact ⟨ext, hext, Or.inl ⟨hlist, hp⟩⟩
    · exact ⟨ext, hext, Or.inr ⟨hlist, hp⟩⟩

/-- C8: for every resolved position, text and requested color — including the
case color = black — the renderer issues exactly two draw calls in order: the
shadow, same text at the resolved position offset by (+2, +2) and filled black,
then the main text at the resolved position in the requested color. -/
theorem c8_shadow_then_main (w h tw th : Int) (anchor txt color : String) :
    drawCalls (get_position w h tw th anchor).1 (get_position w h tw th anchor).2
        txt color
      = [ DrawOp.text ((get_position w h tw th anchor).1 + 2,
            (get_position w h tw th anchor).2 + 2) txt ( "black" ),
          DrawOp.text ((get_position w h tw th anchor).1,
            (get_position w h tw th anchor).2) txt color ] := by
  simp [drawCalls, shadow_color]

/-- C10: whatever the color mode of the opened input image, the working image is
RGBA right after the open-time conversion, so the pre-save alpha check always
takes the flatten branch and the image handed to save is always RGB — the
output never carries an alpha channel. -/
theorem c10_saved_without_alpha (mode : String) :
    modeAfterOpen mode = "RGBA" ∧ modeAtSave mode = "RGB" := by
  by_cases hm : mode = "RGBA" <;> simp [modeAfterOpen, modeAtSave, hm]

/-- C9: when the input path exists and is a regular file, the working set is
exactly that one file — no extension filter is applied in single-file mode —
and the run proceeds, exiting 0 and reporting one file in total. -/
theorem c9_single_file_no_filter (env : BatchEnv)
    (hex : env.pathExists = true) (hfile : env.isFile = true) :
    workingSet env = [ env.inputPath ] ∧
    (mainRun env).exitCode = 0 ∧
    (mainRun env).reportedTotal = some 1 := by
  have hws : workingSet env = [ env.inputPath ] := by
    simp [workingSet, hfile]
  refine ⟨hws, ?_, ?_⟩ <;>
    simp [mainRun, hex, hws]

/-- Witness for C9: a regular file whose extension txt is not an image
extension is still the whole working set; the case-insensitive extension test
of the directory filter rejects it, showing no filter was applied. -/
theorem c9_single_file_no_filter_witness :
    workingSet ⟨ "notes.txt", true, true, [], [] ⟩ = [ "notes.txt" ] ∧
    (mainRun ⟨ "notes.txt", true, true, [], [] ⟩).exitCode = 0 ∧
    specCaseInsensitiveMatch ( "notes.txt" ) = false := by
  have hmain := c9_single_file_no_filter ⟨ "notes.txt", true, true, [], [] ⟩
    rfl rfl
  exact ⟨ hmain.1, hmain.2.1, by decide ⟩

/-- C7: the run exits with status 1 and creates no output directory when the
input path does not exist, and likewise when the working set is empty; in
every other run the output directory is created and the exit status is 0,
whatever the set of files whose processing fails internally. -/
theorem c7_exit_status (env : BatchEnv) :
    (env.pathExists = false → mainRun env = ⟨1, false, none, none, none⟩) ∧
    (env.pathExists = true → workingSet env = [] →
      mainRun env = ⟨1, false, none, none, none⟩) ∧
    (env.pathExists = true → workingSet env ≠ [] →
      (mainRun env).exitCode = 0 ∧ (mainRun env).outputDirCreated = true) := by
  refine ⟨ ?_, ?_, ?_ ⟩
  · intro hex
    simp [mainRun, hex]
  · intro hex hws
    simp [mainRun, hex, hws]
  · intro hex hws
    constructor <;> simp [mainRun, hex, hws]

/-- Witness for C7 at three concrete runs: a missing path, an existing
directory with no matching image, and a directory of two images of which one
fails to process. -/
theorem c7_exit_status_witness :
    mainRun ⟨ "gone", false, false, [], [] ⟩ = ⟨1, false, none, none, none⟩ ∧
    mainRun ⟨ "d", true, false, [ "readme.txt" ], [] ⟩
      = ⟨1, false, none, none, none⟩ ∧
    (mainRun ⟨ "d", true, false, [ "a.jpg", "b.jpg" ], [ "b.jpg" ] ⟩).exitCode
      = 0 := by
  refine ⟨ ?_, ?_, ?_ ⟩
  · exact (c7_exit_status ⟨ "gone", false, false, [], [] ⟩).1 rfl
  · exact (c7_exit_status ⟨ "d", true, false, [ "readme.txt" ], [] ⟩).2.1 rfl
      (by decide)
  · exact ((c7_exit_status
      ⟨ "d", true, false, [ "a.jpg", "b.jpg" ], [ "b.jpg" ] ⟩).2.2 rfl
      (by decide)).1

/-- C1, evaluated at the failing input: a directory holding five matching
images of which one — c.jpg — is corrupt. add_watermark catches the failure
internally and returns normally, so the loop increments success_count anyway:
the footer reports 5/5 although only 4 files were actually saved; the exit
status is still 0. The claim — and the success_count name and the footer text
of the source itself — call for 4/5 here. -/
theorem c1_tally_counts_failures :
    mainRun ⟨ "photos", true, false,
        [ "a.jpg", "b.jpg", "c.jpg", "d.jpg", "e.jpg" ], [ "c.jpg" ] ⟩
      = ⟨0, true, some 5, some 5, some 4⟩ := by decide
